import Mathlib

/-!
Verification of `src/bin/CreateFlowtable.py` from RHESSysWorkflows.

The script is a linear pipeline stage: it validates that required keys are
present in three sections of a project metadata store (study area, RHESSys,
GRASS), parses the DEM x/y resolutions as floats, checks them for
consistency, resolves file paths by joining the project directory with
metadata-supplied relative paths, invokes the external `createflowpaths`
tool once, and on a non-null result writes two metadata entries and one
processing-history entry.

The embedding below mirrors the script line by line.  A metadata section is
an association list from string keys to string values (mirroring a Python
dict); the external tool is an oracle function from the invocation record
to `Option String` (`none` models the `None` failure sentinel of
`read_command`); the run produces a `RunResult` recording how the process
terminated, the resolution-mismatch warning written to stdout, the
invocation (if one happened), the RHESSys metadata entries written and the
history items appended.
-/

namespace CreateFlowtable

/-- A metadata section: a mapping from string keys to string values,
mirroring the Python dicts returned by `readStudyAreaEntries`,
`readGRASSEntries` and `readRHESSysEntries`. -/
abbrev Store := List (String × String)

/-- Key presence, mirroring Python `k in d`. -/
def Store.hasKey (st : Store) (k : String) : Bool :=
  (st.lookup k).isSome

/-- Value access `d[k]`.  In the script every access is guarded by a
presence check, so the default value is never observable on the paths the
script takes. -/
def Store.getD (st : Store) (k : String) : String :=
  (st.lookup k).getD ""

/-- Parsed command-line arguments of the script (argparse section). -/
structure Args where
  projectDir : String
  configfile : Option String
  routeRoads : Bool
  routeRoofs : Bool
  force : Bool
  verbose : Bool
deriving DecidableEq

/-- Value of a decimal digit character. -/
def digitVal (c : Char) : Nat := c.toNat - 48

/-- Natural number denoted by a list of decimal digit characters. -/
def digitsToNat (ds : List Char) : Nat :=
  ds.foldl (fun acc c => acc * 10 + digitVal c) 0

/-- Python `float()` restricted to plain decimal literals: an optional
sign, an integer part and an optional fractional part, at least one digit
overall.  Returns `none` exactly when Python `float()` would raise
`ValueError` on such strings.  The script only ever feeds it the
`dem_res_x` / `dem_res_y` metadata values. -/
def parseFloat (s : String) : Option ℚ :=
  let cs := s.data
  let signAndRest : ℚ × List Char :=
    match cs with
    | c :: t =>
      if c = '-' then (-1, t)
      else if c = '+' then (1, t) else (1, cs)
    | [] => (1, [])
  let sign := signAndRest.1
  let rest := signAndRest.2
  let intPart := rest.takeWhile Char.isDigit
  let tail := rest.dropWhile Char.isDigit
  match tail with
  | [] =>
    if intPart.isEmpty then none
    else some (sign * (digitsToNat intPart : ℚ))
  | '.' :: frac =>
    if frac.all Char.isDigit && !(intPart.isEmpty && frac.isEmpty) then
      some (sign * ((digitsToNat intPart : ℚ)
        + (digitsToNat frac : ℚ) / ((10 : ℚ) ^ frac.length)))
    else none
  | _ => none

/-- POSIX `os.path.join` on two components, as used by the script. -/
def joinPath (a b : String) : String :=
  if b.startsWith "/" then b
  else if a = "" then b
  else if a.endsWith "/" then a ++ b
  else a ++ "/" ++ b

/-- Modelled from the spec: the `RHESSysPaths` helper lives in
`rhessysworkflows/rhessys.py`, which is not under `src/`; the spec states
that the template and flow-table paths are computed by joining the project
directory with metadata-supplied relative paths.  `RHESSYS_DIR` is the
project directory joined with the `rhessys_dir` metadata value. -/
def RHESSYS_DIR (projectDir rhessysDir : String) : String :=
  joinPath projectDir rhessysDir

/-- Modelled from the spec: the templates directory of the RHESSys tree,
`RHESSYS_DIR` joined with the `templates` folder name. -/
def RHESSYS_TEMPLATES (projectDir rhessysDir : String) : String :=
  joinPath (RHESSYS_DIR projectDir rhessysDir) "templates"

/-- Modelled from the spec: the flow-table directory of the RHESSys tree,
`RHESSYS_DIR` joined with the `flow` folder name. -/
def RHESSYS_FLOW (projectDir rhessysDir : String) : String :=
  joinPath (RHESSYS_DIR projectDir rhessysDir) "flow"

/-- The surface flow-table name computed by the script (lines 185-191):
`base_surface.flow` when `--routeRoofs` is given, else `base.flow`. -/
def surfaceFlowtableName (routeRoofs : Bool) (base : String) : String :=
  if routeRoofs then base ++ "_surface.flow" else base ++ ".flow"

/-- The subsurface flow-table name computed by the script (lines 185-191):
`base_subsurface.flow` when `--routeRoofs` is given, else `base.flow`. -/
def subsurfaceFlowtableName (routeRoofs : Bool) (base : String) : String :=
  if routeRoofs then base ++ "_subsurface.flow" else base ++ ".flow"

/-- The single `grassLib.script.read_command` call (lines 194-199): the
executable path and the keyword arguments passed to `createflowpaths`.
`roof` and `impervious` are `none` when the Python variables are `None`. -/
structure CFInvocation where
  cmd : String
  out : String
  template : String
  dem : String
  slope : String
  stream : String
  road : String
  roof : Option String
  impervious : Option String
  cellsize : ℚ
deriving DecidableEq

/-- How the script run terminated: normal completion, `sys.exit` with a
message, or an uncaught `ValueError` from `float()` on the given string. -/
inductive Term where
  | normal
  | exited (msg : String)
  | valueError (s : String)
deriving DecidableEq

/-- Observable effects of one run of the script. -/
structure RunResult where
  term : Term
  /-- The resolution-mismatch warning written to stdout (line 159): the
  pair of values interpolated into
  `DEM x resolution (%f) does not match y resolution (%f)`. -/
  warning : Option (ℚ × ℚ)
  /-- The `read_command` invocation, if the run reached it. -/
  invocation : Option CFInvocation
  /-- `writeRHESSysEntry` calls, in order, as key-value pairs. -/
  rhessysWrites : List (String × String)
  /-- `appendProcessingHistoryItem` calls, in order. -/
  history : List String
deriving DecidableEq

/-- The `sys.exit` message used for a missing metadata key: the shared
format string `Metadata in project directory %s does not contain %s`. -/
def missingMsg (projectDir desc : String) : String :=
  "Metadata in project directory " ++ projectDir ++ " does not contain " ++ desc

/-- Which metadata section a required key is checked in. -/
inductive MetaSection where
  | studyArea
  | rhessys
  | grass
deriving DecidableEq

/-- One precondition check: the section, the key, and the message fragment
describing it in the `sys.exit` message. -/
structure ReqKey where
  sec : MetaSection
  key : String
  desc : String
deriving DecidableEq

/-- The unconditionally required keys, in the order the script checks them
(lines 117-144). -/
def unconditionalChecks : List ReqKey :=
  [ ⟨.studyArea, "dem_res_x", "a DEM x resolution"⟩,
    ⟨.studyArea, "dem_res_y", "a DEM y resolution"⟩,
    ⟨.rhessys, "grass_dbase", "a GRASS Dbase"⟩,
    ⟨.rhessys, "grass_location", "a GRASS location"⟩,
    ⟨.rhessys, "grass_mapset", "a GRASS mapset"⟩,
    ⟨.rhessys, "rhessys_dir", "a RHESSys directory"⟩,
    ⟨.rhessys, "cf_bin", "a createflowpaths executable"⟩,
    ⟨.rhessys, "worldfile", "a worldfile"⟩,
    ⟨.rhessys, "template", "a template"⟩,
    ⟨.grass, "dem_rast", "a GRASS dataset with a DEM raster"⟩,
    ⟨.grass, "slope_rast", "a GRASS dataset with a slope raster"⟩,
    ⟨.grass, "streams_rast", "a GRASS dataset with a stream raster"⟩,
    ⟨.grass, "zero_rast", "a GRASS dataset with a zero raster"⟩ ]

/-- The flag-conditional keys, in the order the script checks them
(lines 146-154). -/
def conditionalChecks (routeRoads routeRoofs : Bool) : List ReqKey :=
  (if routeRoads then [⟨.grass, "roads_rast", "a GRASS dataset with a roads raster"⟩] else [])
  ++ (if routeRoofs then
      [ ⟨.grass, "roof_connectivity_rast", "a GRASS dataset with a roofs raster"⟩,
        ⟨.grass, "impervious_rast", "a GRASS dataset with a impervious raster"⟩ ]
    else [])

/-- All precondition checks of a run, unconditional first, in script
order. -/
def allChecks (routeRoads routeRoofs : Bool) : List ReqKey :=
  unconditionalChecks ++ conditionalChecks routeRoads routeRoofs

/-- The store a check looks in. -/
def sectionStore (studyArea grassMeta metadata : Store) : MetaSection → Store
  | .studyArea => studyArea
  | .rhessys => metadata
  | .grass => grassMeta

/-- Whether a required key is missing from its section. -/
def checkFails (studyArea grassMeta metadata : Store) (rk : ReqKey) : Bool :=
  !(sectionStore studyArea grassMeta metadata rk.sec).hasKey rk.key

/-- The first failing check of a list, if any. -/
def firstFailing (studyArea grassMeta metadata : Store)
    (l : List ReqKey) : Option ReqKey :=
  l.find? (checkFails studyArea grassMeta metadata)

/-- The precondition phase of the script (lines 117-154): the `sys.exit`
message of the first missing required key, or `none` when every required
key is present.  Written as the same chain of conditionals as the source. -/
def preconditionFailure (args : Args)
    (studyArea grassMeta metadata : Store) : Option String :=
  if !studyArea.hasKey "dem_res_x" then
    some (missingMsg args.projectDir "a DEM x resolution")
  else if !studyArea.hasKey "dem_res_y" then
    some (missingMsg args.projectDir "a DEM y resolution")
  else if !metadata.hasKey "grass_dbase" then
    some (missingMsg args.projectDir "a GRASS Dbase")
  else if !metadata.hasKey "grass_location" then
    some (missingMsg args.projectDir "a GRASS location")
  else if !metadata.hasKey "grass_mapset" then
    some (missingMsg args.projectDir "a GRASS mapset")
  else if !metadata.hasKey "rhessys_dir" then
    some (missingMsg args.projectDir "a RHESSys directory")
  else if !metadata.hasKey "cf_bin" then
    some (missingMsg args.projectDir "a createflowpaths executable")
  else if !metadata.hasKey "worldfile" then
    some (missingMsg args.projectDir "a worldfile")
  else if !metadata.hasKey "template" then
    some (missingMsg args.projectDir "a template")
  else if !grassMeta.hasKey "dem_rast" then
    some (missingMsg args.projectDir "a GRASS dataset with a DEM raster")
  else if !grassMeta.hasKey "slope_rast" then
    some (missingMsg args.projectDir "a GRASS dataset with a slope raster")
  else if !grassMeta.hasKey "streams_rast" then
    some (missingMsg args.projectDir "a GRASS dataset with a stream raster")
  else if !grassMeta.hasKey "zero_rast" then
    some (missingMsg args.projectDir "a GRASS dataset with a zero raster")
  else if args.routeRoads && !grassMeta.hasKey "roads_rast" then
    some (missingMsg args.projectDir "a GRASS dataset with a roads raster")
  else if args.routeRoofs && !grassMeta.hasKey "roof_connectivity_rast" then
    some (missingMsg args.projectDir "a GRASS dataset with a roofs raster")
  else if args.routeRoofs && !grassMeta.hasKey "impervious_rast" then
    some (missingMsg args.projectDir "a GRASS dataset with a impervious raster")
  else none

/-- One run of the script body (lines 112-206).  `cmdline` is the value of
`RHESSysMetadata.getCommandLine()`; `cf` is the external `createflowpaths`
oracle: what `grassLib.script.read_command` returns for a given
invocation, with `none` modelling the `None` failure sentinel. -/
def runStage (args : Args) (cmdline : String)
    (studyArea grassMeta metadata : Store)
    (cf : CFInvocation → Option String) : RunResult :=
  match preconditionFailure args studyArea grassMeta metadata with
  | some msg =>
    { term := .exited msg, warning := none, invocation := none,
      rhessysWrites := [], history := [] }
  | none =>
    match parseFloat (studyArea.getD "dem_res_x") with
    | none =>
      { term := .valueError (studyArea.getD "dem_res_x"), warning := none,
        invocation := none, rhessysWrites := [], history := [] }
    | some demResX =>
      match parseFloat (studyArea.getD "dem_res_y") with
      | none =>
        { term := .valueError (studyArea.getD "dem_res_y"), warning := none,
          invocation := none, rhessysWrites := [], history := [] }
      | some demResY =>
        let warning : Option (ℚ × ℚ) :=
          if demResX ≠ demResY then some (demResX, demResY) else none
        if demResX ≠ demResY ∧ args.force = false then
          { term := .exited "Exiting.  Use --force option to override",
            warning := warning, invocation := none,
            rhessysWrites := [], history := [] }
        else
          let cfPath := joinPath args.projectDir (metadata.getD "cf_bin")
          let templatePath :=
            joinPath (RHESSYS_TEMPLATES args.projectDir (metadata.getD "rhessys_dir"))
              (metadata.getD "template")
          let flowTableNameBase := metadata.getD "worldfile"
          let flowOutpath :=
            joinPath (RHESSYS_FLOW args.projectDir (metadata.getD "rhessys_dir"))
              flowTableNameBase
          let roads :=
            if args.routeRoads then grassMeta.getD "roads_rast"
            else grassMeta.getD "zero_rast"
          let roofs : Option String :=
            if args.routeRoofs then some (grassMeta.getD "roof_connectivity_rast")
            else none
          let impervious : Option String :=
            if args.routeRoofs then some (grassMeta.getD "impervious_rast")
            else none
          let surfaceFlowtable := surfaceFlowtableName args.routeRoofs flowTableNameBase
          let subsurfaceFlowtable := subsurfaceFlowtableName args.routeRoofs flowTableNameBase
          let inv : CFInvocation :=
            { cmd := cfPath, out := flowOutpath, template := templatePath,
              dem := grassMeta.getD "dem_rast",
              slope := grassMeta.getD "slope_rast",
              stream := grassMeta.getD "streams_rast",
              road := roads, roof := roofs, impervious := impervious,
              cellsize := demResX }
          match cf inv with
          | none =>
            { term := .exited "createflowpaths failed, returning None",
              warning := warning, invocation := some inv,
              rhessysWrites := [], history := [] }
          | some _ =>
            { term := .normal, warning := warning, invocation := some inv,
              rhessysWrites :=
                [ ("surface_flowtable", surfaceFlowtable),
                  ("subsurface_flowtable", subsurfaceFlowtable) ],
              history := [cmdline] }

/-- The invocation record assembled by lines 164-199 when the run reaches
`read_command`: every field as the script computes it, with `cellsize` the
parsed DEM x resolution. -/
def mkInvocation (args : Args) (grassMeta metadata : Store) (cellsize : ℚ) :
    CFInvocation :=
  { cmd := joinPath args.projectDir (metadata.getD "cf_bin"),
    out := joinPath (RHESSYS_FLOW args.projectDir (metadata.getD "rhessys_dir"))
      (metadata.getD "worldfile"),
    template := joinPath (RHESSYS_TEMPLATES args.projectDir (metadata.getD "rhessys_dir"))
      (metadata.getD "template"),
    dem := grassMeta.getD "dem_rast",
    slope := grassMeta.getD "slope_rast",
    stream := grassMeta.getD "streams_rast",
    road := if args.routeRoads then grassMeta.getD "roads_rast" else grassMeta.getD "zero_rast",
    roof := if args.routeRoofs then some (grassMeta.getD "roof_connectivity_rast") else none,
    impervious := if args.routeRoofs then some (grassMeta.getD "impervious_rast") else none,
    cellsize := cellsize }

/-! Concrete sample inputs used to instantiate the theorems below. -/

/-- A study-area section with matching 10.0-metre resolutions. -/
def sampleStudyArea : Store := [("dem_res_x", "10.0"), ("dem_res_y", "10.0")]

/-- A study-area section whose x and y resolutions differ. -/
def sampleStudyAreaMismatch : Store := [("dem_res_x", "10.0"), ("dem_res_y", "12.0")]

/-- A study-area section whose x resolution is not a number. -/
def sampleStudyAreaBad : Store := [("dem_res_x", "abc"), ("dem_res_y", "10.0")]

/-- A RHESSys section with every required key present. -/
def sampleRHESSys : Store :=
  [ ("grass_dbase", "GRASSData"), ("grass_location", "default"),
    ("grass_mapset", "PERMANENT"), ("rhessys_dir", "rhessys"),
    ("cf_bin", "rhessys/bin/cf"), ("worldfile", "world"),
    ("template", "template") ]

/-- A GRASS section with the four unconditionally required rasters. -/
def sampleGrass : Store :=
  [ ("dem_rast", "dem"), ("slope_rast", "slope"),
    ("streams_rast", "streams"), ("zero_rast", "zero") ]

/-- A GRASS section that additionally has the roads, roof-connectivity and
impervious rasters. -/
def sampleGrassFull : Store :=
  sampleGrass ++ [ ("roads_rast", "roads"), ("roof_connectivity_rast", "roofs"),
    ("impervious_rast", "impervious") ]

/-- Sample command-line arguments: no optional flag set. -/
def sampleArgs : Args :=
  { projectDir := "/proj", configfile := none, routeRoads := false,
    routeRoofs := false, force := false, verbose := false }

/-- Sample arguments with the force-override flag set. -/
def sampleArgsForce : Args :=
  { projectDir := "/proj", configfile := none, routeRoads := false,
    routeRoofs := false, force := true, verbose := false }

/-- Sample arguments with road routing requested. -/
def sampleArgsRoads : Args :=
  { projectDir := "/proj", configfile := none, routeRoads := true,
    routeRoofs := false, force := false, verbose := false }

/-- An external-tool oracle that always succeeds with empty output. -/
def cfOk : CFInvocation → Option String := fun _ => some ""

/-- An external-tool oracle that always returns the failure sentinel. -/
def cfFail : CFInvocation → Option String := fun _ => none

/-! Basic lemmas about the embedding. -/

theorem find?_cons_eq {α : Type} (p : α → Bool) (a : α) (l : List α) :
    List.find? p (a :: l) = if p a then some a else List.find? p l := by
  by_cases h : p a = true
  · simp [List.find?_cons_of_pos, h]
  · simp [List.find?_cons_of_neg, h]

theorem find?_append_of_some {α : Type} {p : α → Bool} {l1 : List α} {a : α}
    (l2 : List α) (h : List.find? p l1 = some a) :
    List.find? p (l1 ++ l2) = some a := by
  induction l1 with
  | nil => simp [List.find?_nil] at h
  | cons b t ih =>
    rw [List.cons_append, find?_cons_eq]
    rw [find?_cons_eq] at h
    by_cases hb : p b = true
    · rw [if_pos hb] at h ⊢
      exact h
    · rw [if_neg hb] at h ⊢
      exact ih h

theorem find?_isSome_of_mem {α : Type} {p : α → Bool} {l : List α} {a : α}
    (hmem : a ∈ l) (ha : p a = true) : ∃ b, List.find? p l = some b := by
  induction l with
  | nil => simp at hmem
  | cons b t ih =>
    rw [find?_cons_eq]
    by_cases hb : p b = true
    · exact ⟨b, if_pos hb⟩
    · rw [if_neg hb]
      rcases List.mem_cons.mp hmem with h | h
      · exact absurd (h ▸ ha) hb
      · exact ih h

set_option maxHeartbeats 1000000 in
/-- The source's chain of precondition conditionals computes exactly the
message of the first failing check in the fixed check order. -/
theorem preconditionFailure_eq_firstFailing (args : Args) (sa gm md : Store) :
    preconditionFailure args sa gm md
      = (firstFailing sa gm md (allChecks args.routeRoads args.routeRoofs)).map
          (fun rk => missingMsg args.projectDir rk.desc) := by
  cases hroads : args.routeRoads <;> cases hroofs : args.routeRoofs <;>
    simp only [preconditionFailure, firstFailing, allChecks, unconditionalChecks,
      conditionalChecks, checkFails, sectionStore, hroads, hroofs, if_true, if_false,
      Bool.true_and, Bool.false_and, Bool.false_eq_true, List.cons_append,
      List.nil_append, List.append_nil, find?_cons_eq, List.find?_nil,
      apply_ite (Option.map (fun rk : ReqKey => missingMsg args.projectDir rk.desc)),
      Option.map_none, Option.map_some] <;>
    simp

theorem runStage_of_failure {args : Args} {c : String} {sa gm md : Store}
    {cf : CFInvocation → Option String} {m : String}
    (hpre : preconditionFailure args sa gm md = some m) :
    runStage args c sa gm md cf =
      { term := .exited m, warning := none, invocation := none,
        rhessysWrites := [], history := [] } := by
  unfold runStage
  rw [hpre]

theorem runStage_of_badx {args : Args} {c : String} {sa gm md : Store}
    {cf : CFInvocation → Option String}
    (hpre : preconditionFailure args sa gm md = none)
    (hx : parseFloat (Store.getD sa "dem_res_x") = none) :
    runStage args c sa gm md cf =
      { term := .valueError (Store.getD sa "dem_res_x"), warning := none,
        invocation := none, rhessysWrites := [], history := [] } := by
  unfold runStage
  rw [hpre, hx]

theorem runStage_of_bady {args : Args} {c : String} {sa gm md : Store}
    {cf : CFInvocation → Option String} {x : ℚ}
    (hpre : preconditionFailure args sa gm md = none)
    (hx : parseFloat (Store.getD sa "dem_res_x") = some x)
    (hy : parseFloat (Store.getD sa "dem_res_y") = none) :
    runStage args c sa gm md cf =
      { term := .valueError (Store.getD sa "dem_res_y"), warning := none,
        invocation := none, rhessysWrites := [], history := [] } := by
  unfold runStage
  rw [hpre, hx, hy]

theorem runStage_of_mismatch {args : Args} {c : String} {sa gm md : Store}
    {cf : CFInvocation → Option String} {x y : ℚ}
    (hpre : preconditionFailure args sa gm md = none)
    (hx : parseFloat (Store.getD sa "dem_res_x") = some x)
    (hy : parseFloat (Store.getD sa "dem_res_y") = some y)
    (hne : x ≠ y) (hforce : args.force = false) :
    runStage args c sa gm md cf =
      { term := .exited "Exiting.  Use --force option to override",
        warning := some (x, y), invocation := none,
        rhessysWrites := [], history := [] } := by
  unfold runStage
  rw [hpre, hx, hy]
  simp only [if_pos (And.intro hne hforce), if_pos hne]

theorem runStage_of_run {args : Args} {c : String} {sa gm md : Store}
    {cf : CFInvocation → Option String} {x y : ℚ}
    (hpre : preconditionFailure args sa gm md = none)
    (hx : parseFloat (Store.getD sa "dem_res_x") = some x)
    (hy : parseFloat (Store.getD sa "dem_res_y") = some y)
    (hok : ¬(x ≠ y ∧ args.force = false)) :
    runStage args c sa gm md cf =
      match cf (mkInvocation args gm md x) with
      | none =>
        { term := .exited "createflowpaths failed, returning None",
          warning := if x ≠ y then some (x, y) else none,
          invocation := some (mkInvocation args gm md x),
          rhessysWrites := [], history := [] }
      | some _ =>
        { term := .normal,
          warning := if x ≠ y then some (x, y) else none,
          invocation := some (mkInvocation args gm md x),
          rhessysWrites :=
            [ ("surface_flowtable",
                surfaceFlowtableName args.routeRoofs (Store.getD md "worldfile")),
              ("subsurface_flowtable",
                subsurfaceFlowtableName args.routeRoofs (Store.getD md "worldfile")) ],
          history := [c] } := by
  unfold runStage
  rw [hpre, hx, hy]
  simp only [if_neg hok]
  rfl

theorem runStage_invocation_inv {args : Args} {c : String} {sa gm md : Store}
    {cf : CFInvocation → Option String} {inv : CFInvocation}
    (h : (runStage args c sa gm md cf).invocation = some inv) :
    ∃ x y, preconditionFailure args sa gm md = none ∧
      parseFloat (Store.getD sa "dem_res_x") = some x ∧
      parseFloat (Store.getD sa "dem_res_y") = some y ∧
      ¬(x ≠ y ∧ args.force = false) ∧
      inv = mkInvocation args gm md x := by
  rcases hpre : preconditionFailure args sa gm md with _ | m
  · rcases hx : parseFloat (Store.getD sa "dem_res_x") with _ | x
    · rw [runStage_of_badx hpre hx] at h
      simp at h
    · rcases hy : parseFloat (Store.getD sa "dem_res_y") with _ | y
      · rw [runStage_of_bady hpre hx hy] at h
        simp at h
      · by_cases hok : x ≠ y ∧ args.force = false
        · rw [runStage_of_mismatch hpre hx hy hok.1 hok.2] at h
          simp at h
        · rw [runStage_of_run hpre hx hy hok] at h
          refine ⟨x, y, rfl, rfl, rfl, hok, ?_⟩
          rcases hcf : cf (mkInvocation args gm md x) with _ | s <;>
            rw [hcf] at h <;> simpa using h.symm
  · rw [runStage_of_failure hpre] at h
    simp at h

theorem string_data_inj {s t : String} (h : s.data = t.data) : s = t := by
  cases s
  cases t
  exact congrArg String.mk (by simpa using h)

theorem missingMsg_inj {pd a b : String} (h : missingMsg pd a = missingMsg pd b) :
    a = b := by
  have h2 := congrArg String.data h
  rw [missingMsg, missingMsg] at h2
  simp only [String.data_append, List.append_assoc] at h2
  exact string_data_inj
    (List.append_cancel_left (List.append_cancel_left (List.append_cancel_left h2)))

theorem projectDir_infix_missingMsg (pd d : String) :
    pd.data <:+: (missingMsg pd d).data := by
  refine ⟨("Metadata in project directory " : String).data,
    (" does not contain " ++ d).data, ?_⟩
  rw [missingMsg]
  simp [String.data_append]

theorem surface_ne_subsurface (base : String) :
    base ++ "_surface.flow" ≠ base ++ "_subsurface.flow" := by
  intro h
  have h2 := congrArg String.data h
  rw [String.data_append, String.data_append] at h2
  have h3 := List.append_cancel_left h2
  simp at h3

theorem desc_inj_unconditional :
    ∀ a ∈ unconditionalChecks, ∀ b ∈ unconditionalChecks, a.desc = b.desc → a = b := by
  decide

/-- Every run of the script lands in exactly one of five shapes: precheck
exit, `float()` ValueError, resolution-mismatch exit, external-tool
failure exit, or normal completion. -/
theorem runStage_shape (args : Args) (c : String) (sa gm md : Store)
    (cf : CFInvocation → Option String) :
    (∃ m, preconditionFailure args sa gm md = some m ∧
      runStage args c sa gm md cf =
        { term := .exited m, warning := none, invocation := none,
          rhessysWrites := [], history := [] }) ∨
    (∃ s, runStage args c sa gm md cf =
        { term := .valueError s, warning := none, invocation := none,
          rhessysWrites := [], history := [] }) ∨
    (∃ x y, x ≠ y ∧ args.force = false ∧
      runStage args c sa gm md cf =
        { term := .exited "Exiting.  Use --force option to override",
          warning := some (x, y), invocation := none,
          rhessysWrites := [], history := [] }) ∨
    (∃ x y, parseFloat (Store.getD sa "dem_res_x") = some x ∧
      parseFloat (Store.getD sa "dem_res_y") = some y ∧
      cf (mkInvocation args gm md x) = none ∧
      runStage args c sa gm md cf =
        { term := .exited "createflowpaths failed, returning None",
          warning := if x ≠ y then some (x, y) else none,
          invocation := some (mkInvocation args gm md x),
          rhessysWrites := [], history := [] }) ∨
    (∃ x y s, parseFloat (Store.getD sa "dem_res_x") = some x ∧
      parseFloat (Store.getD sa "dem_res_y") = some y ∧
      cf (mkInvocation args gm md x) = some s ∧
      runStage args c sa gm md cf =
        { term := .normal,
          warning := if x ≠ y then some (x, y) else none,
          invocation := some (mkInvocation args gm md x),
          rhessysWrites :=
            [ ("surface_flowtable",
                surfaceFlowtableName args.routeRoofs (Store.getD md "worldfile")),
              ("subsurface_flowtable",
                subsurfaceFlowtableName args.routeRoofs (Store.getD md "worldfile")) ],
          history := [c] }) := by
  rcases hpre : preconditionFailure args sa gm md with _ | m
  · rcases hx : parseFloat (Store.getD sa "dem_res_x") with _ | x
    · exact Or.inr (Or.inl ⟨_, runStage_of_badx hpre hx⟩)
    · rcases hy : parseFloat (Store.getD sa "dem_res_y") with _ | y
      · exact Or.inr (Or.inl ⟨_, runStage_of_bady hpre hx hy⟩)
      · by_cases hok : x ≠ y ∧ args.force = false
        · exact Or.inr (Or.inr (Or.inl ⟨x, y, hok.1, hok.2,
            runStage_of_mismatch hpre hx hy hok.1 hok.2⟩))
        · have hrun := @runStage_of_run args c sa gm md cf x y hpre hx hy hok
          rcases hcf : cf (mkInvocation args gm md x) with _ | s
          · rw [hcf] at hrun
            exact Or.inr (Or.inr (Or.inr (Or.inl ⟨x, y, rfl, rfl, hcf, hrun⟩)))
          · rw [hcf] at hrun
            exact Or.inr (Or.inr (Or.inr (Or.inr ⟨x, y, s, rfl, rfl, hcf, hrun⟩)))
  · exact Or.inl ⟨m, rfl, runStage_of_failure hpre⟩

/-- C1: the metadata entries `surface_flowtable` and `subsurface_flowtable`
are written if and only if the external `createflowpaths` invocation
returned a non-null result; on the null sentinel the stage exits with the
diagnostic carrying the raw result value and writes nothing, and on
success it writes both entries with the computed names and appends a
history entry equal to the original command line. -/
theorem claim_C1 (args : Args) (c : String) (sa gm md : Store)
    (cf : CFInvocation → Option String) (r : RunResult)
    (h : runStage args c sa gm md cf = r) :
    (r.invocation = none → r.rhessysWrites = [] ∧ r.history = []) ∧
    (∀ inv, r.invocation = some inv → cf inv = none →
      r.term = Term.exited "createflowpaths failed, returning None" ∧
      r.rhessysWrites = [] ∧ r.history = []) ∧
    (∀ inv s, r.invocation = some inv → cf inv = some s →
      r.rhessysWrites =
        [ ("surface_flowtable",
            surfaceFlowtableName args.routeRoofs (Store.getD md "worldfile")),
          ("subsurface_flowtable",
            subsurfaceFlowtableName args.routeRoofs (Store.getD md "worldfile")) ] ∧
      r.history = [c]) := by
  subst h
  rcases runStage_shape args c sa gm md cf with
    ⟨m, hpre, heq⟩ | ⟨s, heq⟩ | ⟨x, y, hne, hf, heq⟩ |
    ⟨x, y, hx, hy, hcf, heq⟩ | ⟨x, y, s0, hx, hy, hcf, heq⟩ <;>
    rw [heq] <;> simp_all
  rintro inv s rfl
  simp [hcf]

/-- C2: if the parsed `dem_res_x` and `dem_res_y` values differ, the stage
emits the warning carrying both values and then exits without invoking the
external tool unless `--force` is given; with `--force` it proceeds and
passes the x-axis value as the `cellsize` argument. -/
theorem claim_C2 (args : Args) (c : String) (sa gm md : Store)
    (cf : CFInvocation → Option String) (x y : ℚ)
    (hpre : preconditionFailure args sa gm md = none)
    (hx : parseFloat (Store.getD sa "dem_res_x") = some x)
    (hy : parseFloat (Store.getD sa "dem_res_y") = some y)
    (hne : x ≠ y) :
    (runStage args c sa gm md cf).warning = some (x, y) ∧
    (args.force = false →
      (runStage args c sa gm md cf).term =
        Term.exited "Exiting.  Use --force option to override" ∧
      (runStage args c sa gm md cf).invocation = none) ∧
    (args.force = true →
      (runStage args c sa gm md cf).invocation = some (mkInvocation args gm md x) ∧
      (mkInvocation args gm md x).cellsize = x) := by
  by_cases hforce : args.force = true
  · have hok : ¬(x ≠ y ∧ args.force = false) := by simp [hforce]
    have hrun := @runStage_of_run args c sa gm md cf x y hpre hx hy hok
    rcases hcf : cf (mkInvocation args gm md x) with _ | s <;> rw [hcf] at hrun <;>
      rw [hrun] <;> simp [hne, hforce, mkInvocation]
  · have hf : args.force = false := by revert hforce; cases args.force <;> simp
    rw [runStage_of_mismatch hpre hx hy hne hf]
    simp [hf]

/-- C3: a metadata store missing any unconditionally required key makes
the stage exit before invoking the external tool, with the message of the
first missing key in check order; that message embeds the project
directory and identifies the missing key uniquely. -/
theorem claim_C3 (args : Args) (c : String) (sa gm md : Store)
    (cf : CFInvocation → Option String) (rk : ReqKey)
    (hmem : rk ∈ unconditionalChecks)
    (hmiss : (sectionStore sa gm md rk.sec).hasKey rk.key = false) :
    ∃ rk2, firstFailing sa gm md unconditionalChecks = some rk2 ∧
      rk2 ∈ unconditionalChecks ∧
      checkFails sa gm md rk2 = true ∧
      (runStage args c sa gm md cf).term =
        Term.exited (missingMsg args.projectDir rk2.desc) ∧
      (runStage args c sa gm md cf).invocation = none ∧
      args.projectDir.data <:+: (missingMsg args.projectDir rk2.desc).data ∧
      (∀ a ∈ unconditionalChecks, ∀ b ∈ unconditionalChecks,
        missingMsg args.projectDir a.desc = missingMsg args.projectDir b.desc →
          a = b) := by
  have hfail : checkFails sa gm md rk = true := by
    simp [checkFails, hmiss]
  obtain ⟨rk2, hfind⟩ := find?_isSome_of_mem hmem hfail
  have hfind2 : firstFailing sa gm md (allChecks args.routeRoads args.routeRoofs)
      = some rk2 := find?_append_of_some _ hfind
  have hpre : preconditionFailure args sa gm md
      = some (missingMsg args.projectDir rk2.desc) := by
    rw [preconditionFailure_eq_firstFailing, hfind2]
    rfl
  refine ⟨rk2, hfind, List.mem_of_find?_eq_some hfind, List.find?_some hfind,
    ?_, ?_, projectDir_infix_missingMsg _ _, ?_⟩
  · rw [runStage_of_failure hpre]
  · rw [runStage_of_failure hpre]
  · intro a ha b hb hab
    exact desc_inj_unconditional a ha b hb (missingMsg_inj hab)

/-- C4: with `--routeRoofs` the computed flow-table names are the distinct
strings `base_surface.flow` and `base_subsurface.flow`; without it both
names equal `base.flow`. -/
theorem claim_C4 (base : String) :
    surfaceFlowtableName true base = base ++ "_surface.flow" ∧
    subsurfaceFlowtableName true base = base ++ "_subsurface.flow" ∧
    surfaceFlowtableName true base ≠ subsurfaceFlowtableName true base ∧
    surfaceFlowtableName false base = base ++ ".flow" ∧
    subsurfaceFlowtableName false base = base ++ ".flow" := by
  refine ⟨rfl, rfl, ?_, rfl, rfl⟩
  simpa [surfaceFlowtableName, subsurfaceFlowtableName] using
    surface_ne_subsurface base

/-- C5: with `--routeRoads` and no `roads_rast` in the GRASS metadata the
stage exits before invoking the external tool; without `--routeRoads` the
`road` argument is the `zero_rast` metadata value, whether or not
`roads_rast` is present. -/
theorem claim_C5 (args : Args) (c : String) (sa gm md : Store)
    (cf : CFInvocation → Option String) :
    (args.routeRoads = true → gm.hasKey "roads_rast" = false →
      (∃ m, (runStage args c sa gm md cf).term = Term.exited m) ∧
      (runStage args c sa gm md cf).invocation = none) ∧
    (args.routeRoads = false → ∀ inv,
      (runStage args c sa gm md cf).invocation = some inv →
      inv.road = Store.getD gm "zero_rast") := by
  constructor
  · intro hroads hmiss
    have hfail : checkFails sa gm md
        ⟨.grass, "roads_rast", "a GRASS dataset with a roads raster"⟩ = true := by
      simp [checkFails, sectionStore, hmiss]
    have hmem : (⟨.grass, "roads_rast", "a GRASS dataset with a roads raster"⟩ : ReqKey)
        ∈ allChecks args.routeRoads args.routeRoofs := by
      simp [allChecks, conditionalChecks, hroads]
    obtain ⟨rk2, hfind⟩ := find?_isSome_of_mem hmem hfail
    have hfind2 : firstFailing sa gm md (allChecks args.routeRoads args.routeRoofs)
        = some rk2 := hfind
    have hpre : preconditionFailure args sa gm md
        = some (missingMsg args.projectDir rk2.desc) := by
      rw [preconditionFailure_eq_firstFailing, hfind2]
      rfl
    rw [runStage_of_failure hpre]
    exact ⟨⟨_, rfl⟩, rfl⟩
  · intro hroads inv hinv
    obtain ⟨x, y, _, _, _, _, hinv_eq⟩ := runStage_invocation_inv hinv
    rw [hinv_eq]
    simp [mkInvocation, hroads]

/-- C6: the executable, template and output flow-table paths passed to the
external tool are joins of the project directory with metadata-supplied
relative paths, and the invocation is reached for arbitrary values of
those paths, with no existence check. -/
theorem claim_C6 (args : Args) (c : String) (sa gm md : Store)
    (cf : CFInvocation → Option String) (x y : ℚ)
    (hpre : preconditionFailure args sa gm md = none)
    (hx : parseFloat (Store.getD sa "dem_res_x") = some x)
    (hy : parseFloat (Store.getD sa "dem_res_y") = some y)
    (hok : x = y ∨ args.force = true) :
    ∃ inv, (runStage args c sa gm md cf).invocation = some inv ∧
      inv.cmd = joinPath args.projectDir (Store.getD md "cf_bin") ∧
      inv.template = joinPath
        (RHESSYS_TEMPLATES args.projectDir (Store.getD md "rhessys_dir"))
        (Store.getD md "template") ∧
      inv.out = joinPath (RHESSYS_FLOW args.projectDir (Store.getD md "rhessys_dir"))
        (Store.getD md "worldfile") ∧
      inv.cellsize = x := by
  have hok2 : ¬(x ≠ y ∧ args.force = false) := by
    rcases hok with h | h <;> simp [h]
  have hrun := @runStage_of_run args c sa gm md cf x y hpre hx hy hok2
  rcases hcf : cf (mkInvocation args gm md x) with _ | s <;> rw [hcf] at hrun <;>
    exact ⟨_, by rw [hrun], rfl, rfl, rfl, rfl⟩

/-- C7: the precondition checks run in the fixed order `allChecks`, with
every unconditional key before the flag-conditional keys, so a store
missing several required keys deterministically produces the exit message
of the first missing key in that order. -/
theorem claim_C7 (args : Args) (c : String) (sa gm md : Store)
    (cf : CFInvocation → Option String) (rk : ReqKey)
    (hfind : firstFailing sa gm md (allChecks args.routeRoads args.routeRoofs)
      = some rk) :
    (runStage args c sa gm md cf).term =
      Term.exited (missingMsg args.projectDir rk.desc) ∧
    (runStage args c sa gm md cf).invocation = none ∧
    allChecks args.routeRoads args.routeRoofs
      = unconditionalChecks ++ conditionalChecks args.routeRoads args.routeRoofs ∧
    (∀ rk2 ∈ conditionalChecks args.routeRoads args.routeRoofs,
      rk2.key = "roads_rast" ∨ rk2.key = "roof_connectivity_rast" ∨
        rk2.key = "impervious_rast") := by
  have hpre : preconditionFailure args sa gm md
      = some (missingMsg args.projectDir rk.desc) := by
    rw [preconditionFailure_eq_firstFailing, hfind]
    rfl
  rw [runStage_of_failure hpre]
  refine ⟨rfl, rfl, rfl, ?_⟩
  have hcond : ∀ rr rf : Bool, ∀ rk2 ∈ conditionalChecks rr rf,
      rk2.key = "roads_rast" ∨ rk2.key = "roof_connectivity_rast" ∨
        rk2.key = "impervious_rast" := by decide
  exact hcond args.routeRoads args.routeRoofs

/-- C8: a GRASS metadata section lacking `zero_rast` makes the stage exit
before invoking the external tool, for every flag combination, including
`--routeRoads` runs where the zero raster would not be an input. -/
theorem claim_C8 (args : Args) (c : String) (sa gm md : Store)
    (cf : CFInvocation → Option String)
    (hz : gm.hasKey "zero_rast" = false) :
    (∃ m, (runStage args c sa gm md cf).term = Term.exited m) ∧
    (runStage args c sa gm md cf).invocation = none ∧
    (runStage args c sa gm md cf).rhessysWrites = [] := by
  have hfail : checkFails sa gm md
      ⟨.grass, "zero_rast", "a GRASS dataset with a zero raster"⟩ = true := by
    simp [checkFails, sectionStore, hz]
  have hmem : (⟨.grass, "zero_rast", "a GRASS dataset with a zero raster"⟩ : ReqKey)
      ∈ allChecks args.routeRoads args.routeRoofs := by
    simp [allChecks, unconditionalChecks]
  obtain ⟨rk2, hfind⟩ := find?_isSome_of_mem hmem hfail
  have hfind2 : firstFailing sa gm md (allChecks args.routeRoads args.routeRoofs)
      = some rk2 := hfind
  have hpre : preconditionFailure args sa gm md
      = some (missingMsg args.projectDir rk2.desc) := by
    rw [preconditionFailure_eq_firstFailing, hfind2]
    rfl
  rw [runStage_of_failure hpre]
  exact ⟨⟨_, rfl⟩, rfl, rfl⟩

/-- C9: when `--routeRoofs` is not given, the `roof` and `impervious`
arguments of the external invocation are the null value, even if the
corresponding rasters are present in the metadata. -/
theorem claim_C9 (args : Args) (c : String) (sa gm md : Store)
    (cf : CFInvocation → Option String)
    (hroofs : args.routeRoofs = false) :
    ∀ inv, (runStage args c sa gm md cf).invocation = some inv →
      inv.roof = none ∧ inv.impervious = none := by
  intro inv hinv
  obtain ⟨x, y, _, _, _, _, hinv_eq⟩ := runStage_invocation_inv hinv
  rw [hinv_eq]
  simp [mkInvocation, hroofs]

/-- C10: presence checks do not validate numerals: with every required key
present but `dem_res_x` (or `dem_res_y`) unparseable, the run ends in an
uncaught `ValueError` after the key checks, before any invocation, with no
metadata postcondition written. -/
theorem claim_C10 (args : Args) (c : String) (sa gm md : Store)
    (cf : CFInvocation → Option String)
    (hpre : preconditionFailure args sa gm md = none) :
    (parseFloat (Store.getD sa "dem_res_x") = none →
      runStage args c sa gm md cf =
        { term := Term.valueError (Store.getD sa "dem_res_x"), warning := none,
          invocation := none, rhessysWrites := [], history := [] }) ∧
    (∀ x, parseFloat (Store.getD sa "dem_res_x") = some x →
      parseFloat (Store.getD sa "dem_res_y") = none →
      runStage args c sa gm md cf =
        { term := Term.valueError (Store.getD sa "dem_res_y"), warning := none,
          invocation := none, rhessysWrites := [], history := [] }) :=
  ⟨fun hx => runStage_of_badx hpre hx, fun _ hx hy => runStage_of_bady hpre hx hy⟩

theorem sample_hx : parseFloat (Store.getD sampleStudyArea "dem_res_x") = some 10 := by
  show parseFloat "10.0" = some 10
  simp [parseFloat, digitsToNat, digitVal]

theorem sample_hy : parseFloat (Store.getD sampleStudyArea "dem_res_y") = some 10 := by
  show parseFloat "10.0" = some 10
  simp [parseFloat, digitsToNat, digitVal]

theorem claim_C1_witness :
    (runStage sampleArgs "CreateFlowtable.py -p /proj" sampleStudyArea sampleGrass
        sampleRHESSys cfOk).rhessysWrites =
      [("surface_flowtable", "world.flow"), ("subsurface_flowtable", "world.flow")] ∧
    (runStage sampleArgs "CreateFlowtable.py -p /proj" sampleStudyArea sampleGrass
        sampleRHESSys cfOk).history = ["CreateFlowtable.py -p /proj"] := by
  have happ := (claim_C1 sampleArgs "CreateFlowtable.py -p /proj" sampleStudyArea
      sampleGrass sampleRHESSys cfOk _ rfl).2.2
  have hpre : preconditionFailure sampleArgs sampleStudyArea sampleGrass
      sampleRHESSys = none := by decide
  have hok : ¬((10 : ℚ) ≠ 10 ∧ sampleArgs.force = false) := by simp
  have hrun := @runStage_of_run sampleArgs "CreateFlowtable.py -p /proj"
    sampleStudyArea sampleGrass sampleRHESSys cfOk 10 10 hpre sample_hx sample_hy hok
  rw [show cfOk (mkInvocation sampleArgs sampleGrass sampleRHESSys 10) = some ""
    from rfl] at hrun
  have h1 := happ (mkInvocation sampleArgs sampleGrass sampleRHESSys 10) ""
    (by rw [hrun]) rfl
  obtain ⟨hw, hh⟩ := h1
  rw [hw, hh]
  exact ⟨by decide, rfl⟩

theorem sample_hx_m :
    parseFloat (Store.getD sampleStudyAreaMismatch "dem_res_x") = some 10 := by
  show parseFloat "10.0" = some 10
  simp [parseFloat, digitsToNat, digitVal]

theorem sample_hy_m :
    parseFloat (Store.getD sampleStudyAreaMismatch "dem_res_y") = some 12 := by
  show parseFloat "12.0" = some 12
  simp [parseFloat, digitsToNat, digitVal]

theorem claim_C2_witness :
    parseFloat (Store.getD sampleStudyAreaMismatch "dem_res_x") = some 10 ∧
    parseFloat (Store.getD sampleStudyAreaMismatch "dem_res_y") = some 12 ∧
    (10 : ℚ) ≠ 12 ∧
    (runStage sampleArgs "c" sampleStudyAreaMismatch sampleGrass sampleRHESSys
      cfOk).warning = some (10, 12) ∧
    (runStage sampleArgs "c" sampleStudyAreaMismatch sampleGrass sampleRHESSys
      cfOk).term = Term.exited "Exiting.  Use --force option to override" ∧
    (runStage sampleArgs "c" sampleStudyAreaMismatch sampleGrass sampleRHESSys
      cfOk).invocation = none ∧
    (runStage sampleArgsForce "c" sampleStudyAreaMismatch sampleGrass sampleRHESSys
      cfOk).invocation
      = some (mkInvocation sampleArgsForce sampleGrass sampleRHESSys 10) ∧
    (mkInvocation sampleArgsForce sampleGrass sampleRHESSys 10).cellsize = 10 := by
  have hne : (10 : ℚ) ≠ 12 := by simp
  have h1 := claim_C2 sampleArgs "c" sampleStudyAreaMismatch sampleGrass
    sampleRHESSys cfOk 10 12 (by decide) sample_hx_m sample_hy_m hne
  have h2 := claim_C2 sampleArgsForce "c" sampleStudyAreaMismatch sampleGrass
    sampleRHESSys cfOk 10 12 (by decide) sample_hx_m sample_hy_m hne
  exact ⟨sample_hx_m, sample_hy_m, hne, h1.1, (h1.2.1 rfl).1, (h1.2.1 rfl).2,
    (h2.2.2 rfl).1, (h2.2.2 rfl).2⟩

theorem claim_C3_witness :
    (⟨.studyArea, "dem_res_x", "a DEM x resolution"⟩ : ReqKey) ∈ unconditionalChecks ∧
    (sectionStore ([] : Store) sampleGrass sampleRHESSys
      MetaSection.studyArea).hasKey "dem_res_x" = false ∧
    (runStage sampleArgs "c" ([] : Store) sampleGrass sampleRHESSys cfOk).term
      = Term.exited (missingMsg "/proj" "a DEM x resolution") ∧
    (runStage sampleArgs "c" ([] : Store) sampleGrass sampleRHESSys cfOk).invocation
      = none := by
  obtain ⟨rk2, hfind, hmem2, hfail2, hterm, hinv, hinfix, hinj⟩ :=
    claim_C3 sampleArgs "c" ([] : Store) sampleGrass sampleRHESSys cfOk
      ⟨.studyArea, "dem_res_x", "a DEM x resolution"⟩ (by decide) (by decide)
  have hrk2 : rk2 = ⟨.studyArea, "dem_res_x", "a DEM x resolution"⟩ := by
    have hconc : firstFailing ([] : Store) sampleGrass sampleRHESSys
        unconditionalChecks
        = some ⟨.studyArea, "dem_res_x", "a DEM x resolution"⟩ := by decide
    rw [hconc] at hfind
    exact (Option.some.inj hfind).symm
  subst hrk2
  exact ⟨by decide, by decide, hterm, hinv⟩

theorem claim_C5_witness :
    sampleArgsRoads.routeRoads = true ∧
    Store.hasKey sampleGrass "roads_rast" = false ∧
    (∃ m, (runStage sampleArgsRoads "c" sampleStudyArea sampleGrass sampleRHESSys
      cfOk).term = Term.exited m) ∧
    (runStage sampleArgsRoads "c" sampleStudyArea sampleGrass sampleRHESSys
      cfOk).invocation = none ∧
    sampleArgs.routeRoads = false ∧
    (runStage sampleArgs "c" sampleStudyArea sampleGrassFull sampleRHESSys
      cfOk).invocation
      = some (mkInvocation sampleArgs sampleGrassFull sampleRHESSys 10) ∧
    (mkInvocation sampleArgs sampleGrassFull sampleRHESSys 10).road
      = Store.getD sampleGrassFull "zero_rast" := by
  have h1 := (claim_C5 sampleArgsRoads "c" sampleStudyArea sampleGrass
    sampleRHESSys cfOk).1 rfl (by decide)
  have hpre : preconditionFailure sampleArgs sampleStudyArea sampleGrassFull
      sampleRHESSys = none := by decide
  have hok : ¬((10 : ℚ) ≠ 10 ∧ sampleArgs.force = false) := by simp
  have hrun := @runStage_of_run sampleArgs "c" sampleStudyArea sampleGrassFull
    sampleRHESSys cfOk 10 10 hpre sample_hx sample_hy hok
  rw [show cfOk (mkInvocation sampleArgs sampleGrassFull sampleRHESSys 10)
    = some "" from rfl] at hrun
  have hinv : (runStage sampleArgs "c" sampleStudyArea sampleGrassFull
      sampleRHESSys cfOk).invocation
      = some (mkInvocation sampleArgs sampleGrassFull sampleRHESSys 10) := by
    rw [hrun]
  have h2 := (claim_C5 sampleArgs "c" sampleStudyArea sampleGrassFull
    sampleRHESSys cfOk).2 rfl _ hinv
  exact ⟨rfl, by decide, h1.1, h1.2, rfl, hinv, h2⟩

theorem claim_C6_witness :
    preconditionFailure sampleArgs sampleStudyArea sampleGrass sampleRHESSys
      = none ∧
    parseFloat (Store.getD sampleStudyArea "dem_res_x") = some 10 ∧
    parseFloat (Store.getD sampleStudyArea "dem_res_y") = some 10 ∧
    (∃ inv, (runStage sampleArgs "c" sampleStudyArea sampleGrass sampleRHESSys
        cfOk).invocation = some inv ∧
      inv.cmd = joinPath "/proj" (Store.getD sampleRHESSys "cf_bin") ∧
      inv.template = joinPath
        (RHESSYS_TEMPLATES "/proj" (Store.getD sampleRHESSys "rhessys_dir"))
        (Store.getD sampleRHESSys "template") ∧
      inv.out = joinPath (RHESSYS_FLOW "/proj" (Store.getD sampleRHESSys "rhessys_dir"))
        (Store.getD sampleRHESSys "worldfile") ∧
      inv.cellsize = 10) := by
  refine ⟨by decide, sample_hx, sample_hy, ?_⟩
  exact claim_C6 sampleArgs "c" sampleStudyArea sampleGrass sampleRHESSys cfOk
    10 10 (by decide) sample_hx sample_hy (Or.inl rfl)

theorem claim_C7_witness :
    firstFailing sampleStudyArea sampleGrass ([] : Store)
      (allChecks sampleArgs.routeRoads sampleArgs.routeRoofs)
      = some ⟨.rhessys, "grass_dbase", "a GRASS Dbase"⟩ ∧
    (runStage sampleArgs "c" sampleStudyArea sampleGrass ([] : Store) cfOk).term
      = Term.exited (missingMsg "/proj" "a GRASS Dbase") ∧
    (runStage sampleArgs "c" sampleStudyArea sampleGrass ([] : Store)
      cfOk).invocation = none := by
  have hfind : firstFailing sampleStudyArea sampleGrass ([] : Store)
      (allChecks sampleArgs.routeRoads sampleArgs.routeRoofs)
      = some ⟨.rhessys, "grass_dbase", "a GRASS Dbase"⟩ := by decide
  have h := claim_C7 sampleArgs "c" sampleStudyArea sampleGrass ([] : Store) cfOk
    ⟨.rhessys, "grass_dbase", "a GRASS Dbase"⟩ hfind
  exact ⟨hfind, h.1, h.2.1⟩

theorem claim_C8_witness :
    Store.hasKey ([] : Store) "zero_rast" = false ∧
    (∃ m, (runStage sampleArgsRoads "c" sampleStudyArea ([] : Store) sampleRHESSys
      cfOk).term = Term.exited m) ∧
    (runStage sampleArgsRoads "c" sampleStudyArea ([] : Store) sampleRHESSys
      cfOk).invocation = none ∧
    (runStage sampleArgsRoads "c" sampleStudyArea ([] : Store) sampleRHESSys
      cfOk).rhessysWrites = [] := by
  have h := claim_C8 sampleArgsRoads "c" sampleStudyArea ([] : Store)
    sampleRHESSys cfOk (by decide)
  exact ⟨by decide, h.1, h.2.1, h.2.2⟩

theorem claim_C9_witness :
    sampleArgs.routeRoofs = false ∧
    Store.hasKey sampleGrassFull "roof_connectivity_rast" = true ∧
    Store.hasKey sampleGrassFull "impervious_rast" = true ∧
    (mkInvocation sampleArgs sampleGrassFull sampleRHESSys 10).roof = none ∧
    (mkInvocation sampleArgs sampleGrassFull sampleRHESSys 10).impervious = none := by
  have hpre : preconditionFailure sampleArgs sampleStudyArea sampleGrassFull
      sampleRHESSys = none := by decide
  have hok : ¬((10 : ℚ) ≠ 10 ∧ sampleArgs.force = false) := by simp
  have hrun := @runStage_of_run sampleArgs "c" sampleStudyArea sampleGrassFull
    sampleRHESSys cfOk 10 10 hpre sample_hx sample_hy hok
  rw [show cfOk (mkInvocation sampleArgs sampleGrassFull sampleRHESSys 10)
    = some "" from rfl] at hrun
  have hinv : (runStage sampleArgs "c" sampleStudyArea sampleGrassFull
      sampleRHESSys cfOk).invocation
      = some (mkInvocation sampleArgs sampleGrassFull sampleRHESSys 10) := by
    rw [hrun]
  have h := claim_C9 sampleArgs "c" sampleStudyArea sampleGrassFull sampleRHESSys
    cfOk rfl _ hinv
  exact ⟨rfl, by decide, by decide, h.1, h.2⟩

theorem claim_C10_witness :
    preconditionFailure sampleArgs sampleStudyAreaBad sampleGrass sampleRHESSys
      = none ∧
    Store.getD sampleStudyAreaBad "dem_res_x" = "abc" ∧
    parseFloat (Store.getD sampleStudyAreaBad "dem_res_x") = none ∧
    runStage sampleArgs "c" sampleStudyAreaBad sampleGrass sampleRHESSys cfOk =
      { term := Term.valueError (Store.getD sampleStudyAreaBad "dem_res_x"),
        warning := none, invocation := none, rhessysWrites := [], history := [] } := by
  refine ⟨by decide, by decide, by decide, ?_⟩
  exact (claim_C10 sampleArgs "c" sampleStudyAreaBad sampleGrass sampleRHESSys
    cfOk (by decide)).1 (by decide)

end CreateFlowtable
